import Mathlib

/-!
Verification development for the VolleyScout live volleyball scouting app.

Shallow embedding of the core logic of the repository:
* the Rotation Engine and the Score/Serve Ledger (`getRotatedLineup`,
  `handleRotation`, `handleScoreAdjust`, `handleResult` from the game view in
  `src/components/SetupView.tsx`),
* the Coordinate Transform Engine and hit testing, plus the trajectory-capture
  pointer handlers (`normalize`, `getPositionCenter`, `getDistance`,
  `handlePointerDown`, `handlePointerMove`, `handlePointerUp` from
  `src/components/Court.tsx`, the `Court` component imported by the game view),
* the Stats Aggregator (`calculateStats` and the attack-efficiency expression
  from the stats overlay in `src/components/Court.tsx`).

JavaScript numbers are modelled as exact rationals (`ℚ`) for coordinates and
as `Int`/`Nat` for scores and counters; TypeScript string enums become
inductive types; `null`/`undefined` become `Option`.
-/

namespace VolleyScout

/-- `TeamSide` from `types.ts`: `'me' | 'op'`. -/
inductive TeamSide
  | me
  | op
deriving Repr, DecidableEq, BEq

/-- The side opposing a given side (used to phrase "the opposing team wins the
point" in the ledger claims). -/
def TeamSide.other : TeamSide → TeamSide
  | TeamSide.me => TeamSide.op
  | TeamSide.op => TeamSide.me

/-- Rotation slots 1–6 (`Position` in `types.ts`). -/
inductive Position
  | P1
  | P2
  | P3
  | P4
  | P5
  | P6
deriving Repr, DecidableEq, BEq

/-- A player key in the interaction layer: a rotation slot or the Libero
marker (`Position | 'L'` in the source). -/
inductive PosKey
  | slot (p : Position)
  | libero
deriving Repr, DecidableEq, BEq

/-- `ActionType` from `types.ts`: the six action kinds. -/
inductive ActionType
  | serve
  | attack
  | block
  | dig
  | setBall
  | receive
deriving Repr, DecidableEq, BEq

/-- `ActionQuality`: only `NORMAL` is ever used by the capture flow. -/
inductive ActionQuality
  | normal
deriving Repr, DecidableEq, BEq

/-- `ResultType`: `POINT | ERROR | NORMAL`. -/
inductive ResultType
  | point
  | error
  | normal
deriving Repr, DecidableEq, BEq

/-- The interaction state machine's states (`InteractionState` in the game
view): `'IDLE' | 'PLAYER_SELECTED' | 'DRAWING' | 'RESULT_PENDING'`. -/
inductive IState
  | IDLE
  | PLAYER_SELECTED
  | DRAWING
  | RESULT_PENDING
deriving Repr, DecidableEq, BEq

/-- `Lineup` from `types.ts`: a mapping from rotation slots 1–6 to jersey
numbers (strings). Field `pN` is the player at slot `N`. -/
structure Lineup where
  p1 : String
  p2 : String
  p3 : String
  p4 : String
  p5 : String
  p6 : String
deriving Repr, DecidableEq, BEq

/-- `lineup[pos]` lookup. -/
def Lineup.get (l : Lineup) : Position → String
  | Position.P1 => l.p1
  | Position.P2 => l.p2
  | Position.P3 => l.p3
  | Position.P4 => l.p4
  | Position.P5 => l.p5
  | Position.P6 => l.p6

/-- A point in the logical SVG court space (18 × 9 units, embedded in a
slightly larger drawable viewBox). JS floats are modelled as exact `ℚ`. -/
structure Point where
  x : ℚ
  y : ℚ
deriving Repr, DecidableEq

/-- `Coordinate` from `types.ts`: a normalized percentage pair used for
storage. -/
structure Coordinate where
  x : ℚ
  y : ℚ
deriving Repr, DecidableEq

/-- `LogEntry` from `types.ts`: one committed `MatchEvent` record. `Date.now()`
values (`id` and `timestamp`) are supplied by the caller of the embedded
handlers. -/
structure LogEntry where
  id : String
  timestamp : Nat
  setNumber : Nat
  myScore : Int
  opScore : Int
  playerNumber : String
  position : PosKey
  action : ActionType
  quality : ActionQuality
  result : ResultType
  startCoord : Option Coordinate := none
  endCoord : Option Coordinate := none
  note : String
  servingTeam : TeamSide
deriving Repr, DecidableEq

/-- The `scoreUpdate` delta passed to `onGameAction`. -/
structure ScoreUpdate where
  myDelta : Int
  opDelta : Int
deriving Repr, DecidableEq

/-- The `lineupUpdate` delta passed to `onGameAction`. An absent `newLibero`
field in the source object is `none` here: the owner then leaves the Libero
unchanged. -/
structure LineupUpdate where
  isMyTeam : Bool
  newLineup : Lineup
  newLibero : Option String := none
deriving Repr, DecidableEq

/-- One `onGameAction(newLog, scoreUpdate, lineupUpdate, servingTeamUpdate)`
invocation: the full tuple of deltas the interaction layer proposes to the
owning layer. -/
structure GameAction where
  newLog : Option LogEntry
  scoreUpdate : Option ScoreUpdate
  lineupUpdate : Option LineupUpdate
  servingTeamUpdate : Option TeamSide
deriving Repr, DecidableEq

/-- The game view's props plus interaction-local state, i.e. everything the
embedded handlers read: team names, current set, lineups, Liberos, the score,
the serving team, and the capture state machine's data. -/
structure GameView where
  myName : String
  opName : String
  currentSet : Nat
  myLineup : Lineup
  opLineup : Lineup
  myLibero : String
  opLibero : String
  myScore : Int
  opScore : Int
  servingTeam : TeamSide
  istate : IState
  activeSide : TeamSide
  selectedPos : Option PosKey
  selectedAction : Option ActionType
  startCoord : Option Coordinate
  endCoord : Option Coordinate
deriving Repr, DecidableEq

/-- `getRotatedLineup` (game view): one clockwise volleyball rotation,
`{1: l[2], 6: l[1], 5: l[6], 4: l[5], 3: l[4], 2: l[3]}`. Total by
construction; it does not mention either team's Libero. -/
def getRotatedLineup (l : Lineup) : Lineup :=
  { p1 := l.p2, p6 := l.p1, p5 := l.p6, p4 := l.p5, p3 := l.p4, p2 := l.p3 }

/-- `handleRotation` (game view): an explicit manual-rotate request; emits only
a lineup replacement for the requested team, with no log, score or serve
delta, and no Libero change. -/
def handleRotation (g : GameView) (isMyTeam : Bool) : GameAction :=
  let currentLineup := if isMyTeam then g.myLineup else g.opLineup
  { newLog := none, scoreUpdate := none,
    lineupUpdate := some { isMyTeam := isMyTeam,
                           newLineup := getRotatedLineup currentLineup,
                           newLibero := none },
    servingTeamUpdate := none }

/-- `handleScoreAdjust` (game view): the manual score-adjustment shortcut.
`now`/`idStr` stand for the `Date.now()` timestamp and id of the synthesized
log entry. -/
def handleScoreAdjust (g : GameView) (now : Nat) (idStr : String)
    (isMyTeam : Bool) (delta : Int) : GameAction :=
  let scoreUpdate : ScoreUpdate :=
    { myDelta := if isMyTeam then delta else 0,
      opDelta := if !isMyTeam then delta else 0 }
  let winResolved : Option LineupUpdate × Option TeamSide :=
    if delta > 0 then
      let pointWinner : TeamSide := if isMyTeam then TeamSide.me else TeamSide.op
      if pointWinner ≠ g.servingTeam then
        let lineToRotate := if pointWinner = TeamSide.me then g.myLineup else g.opLineup
        (some { isMyTeam := decide (pointWinner = TeamSide.me),
                newLineup := getRotatedLineup lineToRotate,
                newLibero := none },
         some pointWinner)
      else (none, none)
    else (none, none)
  let lineupUpdate := winResolved.1
  let newServingTeam := winResolved.2
  let newLog : LogEntry :=
    { id := idStr, timestamp := now, setNumber := g.currentSet,
      myScore := if isMyTeam then g.myScore + delta else g.myScore,
      opScore := if !isMyTeam then g.opScore + delta else g.opScore,
      playerNumber := "",
      position := PosKey.slot Position.P1,
      action := ActionType.attack,
      quality := ActionQuality.normal,
      result := if delta > 0 then ResultType.point else ResultType.normal,
      note := "Manual Adjust " ++ (if delta > 0 then "+" else "") ++ toString delta,
      servingTeam := newServingTeam.getD g.servingTeam }
  { newLog := some newLog, scoreUpdate := some scoreUpdate,
    lineupUpdate := lineupUpdate, servingTeamUpdate := newServingTeam }

/-- `handleResult` (game view): outcome confirmation. Returns `none` exactly
when the source's guard `if (!selectedPos || !selectedAction) return;` fires
(no event emitted); otherwise the full `onGameAction` tuple. -/
def handleResult (g : GameView) (now : Nat) (idStr : String)
    (result : ResultType) : Option GameAction :=
  match g.selectedPos, g.selectedAction with
  | some selPos, some selAct =>
    let isMyTeam : Bool := decide (g.activeSide = TeamSide.me)
    let lineup := if isMyTeam then g.myLineup else g.opLineup
    let playerNumber :=
      match selPos with
      | PosKey.libero => if isMyTeam then g.myLibero else g.opLibero
      | PosKey.slot p => lineup.get p
    let resolved : Option ScoreUpdate × Option TeamSide × Option LineupUpdate :=
      match result with
      | ResultType.point =>
        let su : ScoreUpdate :=
          { myDelta := if isMyTeam then 1 else 0,
            opDelta := if !isMyTeam then 1 else 0 }
        let pointWinner : TeamSide := if isMyTeam then TeamSide.me else TeamSide.op
        if pointWinner ≠ g.servingTeam then
          let lineToRotate := if pointWinner = TeamSide.me then g.myLineup else g.opLineup
          (some su, some pointWinner,
           some { isMyTeam := decide (pointWinner = TeamSide.me),
                  newLineup := getRotatedLineup lineToRotate,
                  newLibero := none })
        else (some su, none, none)
      | ResultType.error =>
        let su : ScoreUpdate :=
          { myDelta := if !isMyTeam then 1 else 0,
            opDelta := if isMyTeam then 1 else 0 }
        let pointWinner : TeamSide := if !isMyTeam then TeamSide.me else TeamSide.op
        if pointWinner ≠ g.servingTeam then
          let lineToRotate := if pointWinner = TeamSide.me then g.myLineup else g.opLineup
          (some su, some pointWinner,
           some { isMyTeam := decide (pointWinner = TeamSide.me),
                  newLineup := getRotatedLineup lineToRotate,
                  newLibero := none })
        else (some su, none, none)
      | ResultType.normal => (none, none, none)
    let scoreUpdate := resolved.1
    let newServingTeam := resolved.2.1
    let lineupUpdate := resolved.2.2
    let nextMyScore :=
      match scoreUpdate with
      | some su => g.myScore + su.myDelta
      | none => g.myScore
    let nextOpScore :=
      match scoreUpdate with
      | some su => g.opScore + su.opDelta
      | none => g.opScore
    let newLog : LogEntry :=
      { id := idStr, timestamp := now, setNumber := g.currentSet,
        myScore := nextMyScore, opScore := nextOpScore,
        playerNumber := playerNumber, position := selPos, action := selAct,
        quality := ActionQuality.normal, result := result,
        startCoord := g.startCoord, endCoord := g.endCoord,
        note := if isMyTeam then g.myName else g.opName,
        servingTeam := newServingTeam.getD g.servingTeam }
    some { newLog := some newLog, scoreUpdate := scoreUpdate,
           lineupUpdate := lineupUpdate, servingTeamUpdate := newServingTeam }
  | _, _ => none

/-- The outcome buttons of the right panel carry
`disabled={state !== 'RESULT_PENDING'}`: an outcome confirmation can only fire
in the `RESULT_PENDING` state. -/
def resultButton (g : GameView) (now : Nat) (idStr : String)
    (result : ResultType) : Option GameAction :=
  if g.istate = IState.RESULT_PENDING then handleResult g now idStr result
  else none

/-- The `lineup` a side currently plays (`pointWinner === 'me' ?
initialMyLineup : initialOpLineup`). -/
def teamLineup (g : GameView) (w : TeamSide) : Lineup :=
  if w = TeamSide.me then g.myLineup else g.opLineup

/-- My-score delta effectively proposed by an optional emission (`none`
emits nothing, so the delta is 0). -/
def emittedMyDelta : Option GameAction → Int
  | none => 0
  | some ga =>
    match ga.scoreUpdate with
    | some su => su.myDelta
    | none => 0

/-- Op-score delta effectively proposed by an optional emission. -/
def emittedOpDelta : Option GameAction → Int
  | none => 0
  | some ga =>
    match ga.scoreUpdate with
    | some su => su.opDelta
    | none => 0

/-- Serving-team delta proposed by an optional emission. -/
def emittedServe : Option GameAction → Option TeamSide
  | none => none
  | some ga => ga.servingTeamUpdate

/-- Lineup delta proposed by an optional emission. -/
def emittedLineup : Option GameAction → Option LineupUpdate
  | none => none
  | some ga => ga.lineupUpdate

/-! ## Coordinate Transform Engine and trajectory capture (`Court.tsx`) -/

/-- `normalize` (Court): scale an SVG point in the 18 × 9 logical court space
to percentage units, `{x: (x/18)*100, y: (y/9)*100}`. -/
def normalize (pt : Point) : Coordinate :=
  { x := pt.x / 18 * 100, y := pt.y / 9 * 100 }

/-- Modelled from the spec: `denormalize(Coordinate) -> LogicalPoint`, the
inverse linear scale of `normalize` (by 18/100 and 9/100 per axis). The
repository's `src/` has no `denormalize` function — the spec postulates it as
the inverse of `normalize`, so it is written here from the spec's words for
the round-trip claim. -/
def denormalize (c : Coordinate) : Point :=
  { x := c.x / 100 * 18, y := c.y / 100 * 9 }

/-- `getPositionCenter` (Court): canonical anchor point of a rotation slot in
the fixed 3×2 per-team grid; the Libero marker is treated as slot 6. When the
selected action is Serve and `ignoreAction` is false, the x coordinate is
pushed outside the court (`-0.5` for my side, `18.5` for the opponent). -/
def getPositionCenter (action : Option ActionType) (side : TeamSide)
    (pos : PosKey) (ignoreAction : Bool) : Point :=
  match side with
  | TeamSide.me =>
    let p : Point :=
      match pos with
      | PosKey.slot Position.P4 => { x := 15/2, y := 3/2 }
      | PosKey.slot Position.P3 => { x := 15/2, y := 9/2 }
      | PosKey.slot Position.P2 => { x := 15/2, y := 15/2 }
      | PosKey.slot Position.P5 => { x := 3, y := 3/2 }
      | PosKey.slot Position.P6 => { x := 3, y := 9/2 }
      | PosKey.slot Position.P1 => { x := 3, y := 15/2 }
      | PosKey.libero => { x := 3, y := 9/2 }
    if ignoreAction = false ∧ action = some ActionType.serve then { p with x := -1/2 }
    else p
  | TeamSide.op =>
    let p : Point :=
      match pos with
      | PosKey.slot Position.P2 => { x := 21/2, y := 3/2 }
      | PosKey.slot Position.P3 => { x := 21/2, y := 9/2 }
      | PosKey.slot Position.P4 => { x := 21/2, y := 15/2 }
      | PosKey.slot Position.P1 => { x := 15, y := 3/2 }
      | PosKey.slot Position.P6 => { x := 15, y := 9/2 }
      | PosKey.slot Position.P5 => { x := 15, y := 15/2 }
      | PosKey.libero => { x := 15, y := 9/2 }
    if ignoreAction = false ∧ action = some ActionType.serve then { p with x := 37/2 }
    else p

/-- Drag modes of the trajectory capture: `'start' | 'end' | 'draw_new'`. -/
inductive DragMode
  | dragStart
  | dragEnd
  | drawNew
deriving Repr, DecidableEq, BEq

/-- The Court component's trajectory-local state: candidate start/end points
and the active drag mode (`null` is `none`). -/
structure CourtState where
  startPos : Option Point
  endPos : Option Point
  dragMode : Option DragMode
deriving Repr, DecidableEq

/-- `HIT_RADIUS` (Court): 1.5 SVG units. -/
def hitRadius : ℚ := 3/2

/-- The squared Euclidean distance between two points. The source's
`getDistance` returns `Math.sqrt` of this value and is only ever compared
against `HIT_RADIUS`; since the radius is positive, `getDistance p q < r` is
equivalent to `getDistanceSq p q < r ^ 2` (lemma `getDistance_lt_radius_iff`
below), so the comparisons are embedded squared to stay in exact `ℚ`. -/
def getDistanceSq (p1 p2 : Point) : ℚ :=
  (p1.x - p2.x) ^ 2 + (p1.y - p2.y) ^ 2

/-- `getDistance(pt, c) < HIT_RADIUS` against an optional stored endpoint;
false when no endpoint is stored. -/
def hitsEndpoint (pt : Point) (c : Option Point) : Bool :=
  match c with
  | some e => decide (getDistanceSq pt e < hitRadius ^ 2)
  | none => false

/-- `handlePointerDown` (Court): ignored outside `DRAWING`/`RESULT_PENDING`;
otherwise grabs the end point if hit, else the start point if hit, else places
a new end point at the tap and starts dragging it. Emits no commit (the
source's `handlePointerDown` never calls `onDrawingComplete`). -/
def handlePointerDown (istate : IState) (pt : Point) (s : CourtState) :
    CourtState :=
  if istate ≠ IState.DRAWING ∧ istate ≠ IState.RESULT_PENDING then s
  else if hitsEndpoint pt s.endPos then { s with dragMode := some DragMode.dragEnd }
  else if hitsEndpoint pt s.startPos then { s with dragMode := some DragMode.dragStart }
  else { s with dragMode := some DragMode.dragEnd, endPos := some pt }

/-- `handlePointerMove` (Court): with no active drag nothing happens;
otherwise only the grabbed candidate endpoint is moved. The second component
is the `onDrawingComplete` emission, which `handlePointerMove` never makes. -/
def handlePointerMove (pt : Point) (s : CourtState) :
    CourtState × Option (Coordinate × Coordinate) :=
  match s.dragMode with
  | none => (s, none)
  | some DragMode.dragStart => ({ s with startPos := some pt }, none)
  | some DragMode.dragEnd => ({ s with endPos := some pt }, none)
  | some DragMode.drawNew => ({ s with endPos := some pt }, none)

/-- `handlePointerUp` (Court): clears the drag mode and, exactly when both a
start and an end point exist, emits the normalized pair to
`onDrawingComplete` ("Notify parent only on release"). -/
def handlePointerUp (s : CourtState) :
    CourtState × Option (Coordinate × Coordinate) :=
  let s2 : CourtState := { s with dragMode := none }
  match s.startPos, s.endPos with
  | some st, some en => (s2, some (normalize st, normalize en))
  | _, _ => (s2, none)

/-- `handleDrawingComplete` (game view): receiving the committed pair stores
it and moves the state machine to `RESULT_PENDING`. -/
def handleDrawingComplete (g : GameView) (start en : Coordinate) : GameView :=
  { g with startCoord := some start, endCoord := some en,
           istate := IState.RESULT_PENDING }

/-! ## Stats Aggregator (`StatsOverlay` in `Court.tsx`) -/

/-- `StatSummary` from the stats overlay. -/
structure StatSummary where
  attackKills : Nat
  attackTotal : Nat
  blocks : Nat
  serveAces : Nat
  serveErrors : Nat
  digs : Nat
  totalPoints : Nat
deriving Repr, DecidableEq

/-- One iteration of `calculateStats`'s `forEach` body. -/
def statStep (s : StatSummary) (l : LogEntry) : StatSummary :=
  let s :=
    if l.action = ActionType.attack then
      { s with attackTotal := s.attackTotal + 1,
               attackKills :=
                 if l.result = ResultType.point then s.attackKills + 1
                 else s.attackKills }
    else s
  let s :=
    if l.action = ActionType.block ∧ l.result = ResultType.point then
      { s with blocks := s.blocks + 1 }
    else s
  let s :=
    if l.action = ActionType.serve then
      { s with serveAces :=
                 if l.result = ResultType.point then s.serveAces + 1
                 else s.serveAces,
               serveErrors :=
                 if l.result = ResultType.error then s.serveErrors + 1
                 else s.serveErrors }
    else s
  let s :=
    if l.action = ActionType.dig then { s with digs := s.digs + 1 }
    else s
  s

/-- `calculateStats` (stats overlay): fold the counters over the given log
subset, then derive `totalPoints = attackKills + blocks + serveAces`. -/
def calculateStats (logs : List LogEntry) : StatSummary :=
  let s := logs.foldl statStep
    { attackKills := 0, attackTotal := 0, blocks := 0, serveAces := 0,
      serveErrors := 0, digs := 0, totalPoints := 0 }
  { s with totalPoints := s.attackKills + s.blocks + s.serveAces }

/-- The attack-efficiency expression rendered by the stats overlay:
`attackTotal > 0 ? Math.round((attackKills/attackTotal)*100) : 0`
(`Math.round` on a nonnegative value is Mathlib's `round`). -/
def attackEffPercent (logs : List LogEntry) : Int :=
  let s := calculateStats logs
  if s.attackTotal > 0 then round ((s.attackKills : ℚ) / (s.attackTotal : ℚ) * 100)
  else 0

/-! ## Concrete sample data for witnesses -/

/-- The lineup of end-to-end scenario A in the spec:
`{1:"5", 2:"4", 3:"3", 4:"2", 5:"7", 6:"6"}`. -/
def demoLineup : Lineup :=
  { p1 := "5", p2 := "4", p3 := "3", p4 := "2", p5 := "7", p6 := "6" }

/-- A concrete game view in `RESULT_PENDING` with a fully captured context
(player at slot 3, action Attack, trajectory drawn), my side serving. -/
def demoGame : GameView :=
  { myName := "Home", opName := "Away", currentSet := 1,
    myLineup := demoLineup, opLineup := demoLineup,
    myLibero := "9", opLibero := "8",
    myScore := 0, opScore := 0,
    servingTeam := TeamSide.me,
    istate := IState.RESULT_PENDING,
    activeSide := TeamSide.me,
    selectedPos := some (PosKey.slot Position.P3),
    selectedAction := some ActionType.attack,
    startCoord := some { x := 10, y := 10 },
    endCoord := some { x := 90, y := 90 } }

/-- `demoGame` with the acting player cleared (an incomplete capture). -/
def demoGameNoSel : GameView :=
  { demoGame with selectedPos := none }

/-- A concrete trajectory-capture state whose pointer-down target at the
origin is within the hit radius of both stored endpoints. -/
def demoCourt : CourtState :=
  { startPos := some { x := 0, y := 1 },
    endPos := some { x := 0, y := 0 },
    dragMode := none }

/-! ## Theorems -/

/-- Justification for the squared embedding of the hit test: for the positive
hit radius, comparing the source's `Math.sqrt` distance against the radius is
the same as comparing the squared distance against the squared radius. -/
theorem getDistance_lt_radius_iff (p1 p2 : Point) :
    Real.sqrt ((getDistanceSq p1 p2 : ℚ) : ℝ) < ((hitRadius : ℚ) : ℝ) ↔
      getDistanceSq p1 p2 < hitRadius ^ 2 := by
  rw [Real.sqrt_lt' (by norm_num [hitRadius])]
  constructor
  · intro h
    exact_mod_cast h
  · intro h
    exact_mod_cast h

/-- C3: one application of the Rotation Engine is exactly the relabeling
new[1]=old[2], new[2]=old[3], new[3]=old[4], new[4]=old[5], new[5]=old[6],
new[6]=old[1]; it is a total function (defined for every 6-slot lineup by
construction), and a rotation request emits no Libero change (the emitted
`lineupUpdate` carries `newLibero = none`) and no other delta. -/
theorem rotation_engine_spec (l : Lineup) (g : GameView) (isMy : Bool) :
    getRotatedLineup l =
      { p1 := l.p2, p2 := l.p3, p3 := l.p4, p4 := l.p5, p5 := l.p6, p6 := l.p1 }
  ∧ handleRotation g isMy =
      { newLog := none, scoreUpdate := none,
        lineupUpdate := some
          { isMyTeam := isMy,
            newLineup := getRotatedLineup (if isMy then g.myLineup else g.opLineup),
            newLibero := none },
        servingTeamUpdate := none } :=
  ⟨rfl, rfl⟩

/-- C4: during trajectory capture, a drag-move event only repositions the
grabbed candidate endpoint and never emits the drawing-complete commit (so it
never triggers the transition to `RESULT_PENDING`); the commit, with both the
start and the end point, is emitted exactly on pointer release when both
points exist. -/
theorem commit_only_on_release (pt : Point) (s : CourtState) :
    (handlePointerMove pt s).2 = none
  ∧ (handlePointerMove pt s).1.dragMode = s.dragMode
  ∧ (handlePointerUp s).2 =
      (match s.startPos, s.endPos with
       | some st, some en => some (normalize st, normalize en)
       | _, _ => none) := by
  refine ⟨?_, ?_, ?_⟩
  · cases h : s.dragMode with
    | none => simp [handlePointerMove, h]
    | some d => cases d <;> simp [handlePointerMove, h]
  · cases h : s.dragMode with
    | none => simp [handlePointerMove, h]
    | some d => cases d <;> simp [handlePointerMove, h]
  · cases hs : s.startPos <;> cases he : s.endPos <;>
      simp [handlePointerUp, hs, he]

/-- C5: an outcome selection without a valid acting player/action context is
rejected: `handleResult` emits nothing at all (no event, no score delta, no
serve or lineup delta). -/
theorem incomplete_capture_rejected (g : GameView) (now : Nat) (idStr : String)
    (r : ResultType) (h : g.selectedPos = none ∨ g.selectedAction = none) :
    handleResult g now idStr r = none := by
  rcases h with h | h
  · cases ha : g.selectedAction <;> simp [handleResult, h, ha]
  · cases hp : g.selectedPos <;> simp [handleResult, h, hp]

/-- Witness for C5 at a concrete incomplete capture. -/
theorem incomplete_capture_rejected_witness :
    (demoGameNoSel.selectedPos = none ∨ demoGameNoSel.selectedAction = none)
  ∧ handleResult demoGameNoSel 0 "w5" ResultType.point = none :=
  ⟨Or.inl rfl,
   incomplete_capture_rejected demoGameNoSel 0 "w5" ResultType.point (Or.inl rfl)⟩

/-- C10: a manual score adjustment with a negative delta emits no lineup
update and no serving-team update (both teams' lineups and Liberos and the
serve are untouched); the only state delta is the score decrease on the
adjusted side, and the synthesized log entry records result Normal and the
unchanged serving team. -/
theorem manual_decrement_frame (g : GameView) (now : Nat) (idStr : String)
    (isMy : Bool) (delta : Int) (hneg : delta < 0) :
    (handleScoreAdjust g now idStr isMy delta).lineupUpdate = none
  ∧ (handleScoreAdjust g now idStr isMy delta).servingTeamUpdate = none
  ∧ (handleScoreAdjust g now idStr isMy delta).scoreUpdate =
      some { myDelta := if isMy then delta else 0,
             opDelta := if isMy then 0 else delta }
  ∧ Option.map LogEntry.result (handleScoreAdjust g now idStr isMy delta).newLog
      = some ResultType.normal
  ∧ Option.map LogEntry.servingTeam (handleScoreAdjust g now idStr isMy delta).newLog
      = some g.servingTeam := by
  have h : ¬ delta > 0 := by omega
  cases isMy <;> simp [handleScoreAdjust, h]

/-- Witness for C10: the decrement button's actual call (`delta = -1`) on the
concrete game: a one-point decrease and nothing else. -/
theorem manual_decrement_frame_witness :
    ((-1 : Int) < 0)
  ∧ (handleScoreAdjust demoGame 0 "w10" true (-1)).lineupUpdate = none
  ∧ (handleScoreAdjust demoGame 0 "w10" true (-1)).servingTeamUpdate = none
  ∧ (handleScoreAdjust demoGame 0 "w10" true (-1)).scoreUpdate =
      some { myDelta := -1, opDelta := 0 }
  ∧ Option.map LogEntry.result (handleScoreAdjust demoGame 0 "w10" true (-1)).newLog
      = some ResultType.normal
  ∧ Option.map LogEntry.servingTeam (handleScoreAdjust demoGame 0 "w10" true (-1)).newLog
      = some TeamSide.me :=
  ⟨by decide, manual_decrement_frame demoGame 0 "w10" true (-1) (by decide)⟩

/-- C2: on outcome confirmation in `RESULT_PENDING` with a valid
player/action context, a Point outcome credits exactly one point to the acting
side and none to the other, an Error outcome credits exactly one point to the
opposing side and none to the acting side, and a Normal outcome changes
neither score. -/
theorem outcome_score_deltas (g : GameView) (now : Nat) (idStr : String)
    (hstate : g.istate = IState.RESULT_PENDING)
    (hp : g.selectedPos.isSome = true) (ha : g.selectedAction.isSome = true) :
    emittedMyDelta (resultButton g now idStr ResultType.point) =
      (if g.activeSide = TeamSide.me then 1 else 0)
  ∧ emittedOpDelta (resultButton g now idStr ResultType.point) =
      (if g.activeSide = TeamSide.me then 0 else 1)
  ∧ emittedMyDelta (resultButton g now idStr ResultType.error) =
      (if g.activeSide = TeamSide.me then 0 else 1)
  ∧ emittedOpDelta (resultButton g now idStr ResultType.error) =
      (if g.activeSide = TeamSide.me then 1 else 0)
  ∧ emittedMyDelta (resultButton g now idStr ResultType.normal) = 0
  ∧ emittedOpDelta (resultButton g now idStr ResultType.normal) = 0 := by
  obtain ⟨sp, hsp⟩ := Option.isSome_iff_exists.mp hp
  obtain ⟨sa, hsa⟩ := Option.isSome_iff_exists.mp ha
  cases hA : g.activeSide <;> cases hS : g.servingTeam <;>
    simp [resultButton, handleResult, emittedMyDelta, emittedOpDelta,
          hstate, hsp, hsa, hA, hS]

/-- Witness for C2 on the concrete pending capture (acting side = me). -/
theorem outcome_score_deltas_witness :
    demoGame.istate = IState.RESULT_PENDING
  ∧ demoGame.selectedPos.isSome = true
  ∧ demoGame.selectedAction.isSome = true
  ∧ emittedMyDelta (resultButton demoGame 0 "w2" ResultType.point) = 1
  ∧ emittedOpDelta (resultButton demoGame 0 "w2" ResultType.point) = 0
  ∧ emittedMyDelta (resultButton demoGame 0 "w2" ResultType.error) = 0
  ∧ emittedOpDelta (resultButton demoGame 0 "w2" ResultType.error) = 1
  ∧ emittedMyDelta (resultButton demoGame 0 "w2" ResultType.normal) = 0
  ∧ emittedOpDelta (resultButton demoGame 0 "w2" ResultType.normal) = 0 := by
  refine ⟨rfl, rfl, rfl, ?_⟩
  have h := outcome_score_deltas demoGame 0 "w2" rfl rfl rfl
  simpa [demoGame] using h

/-- C1: for Point/Error outcomes on the full-capture path and for positive
manual score adjustments, the point-winning side (acting side for Point,
opposing side for Error, incremented side for a positive manual adjustment)
receives the serve and exactly one rotation of its lineup if and only if it
differs from the side currently serving; when the winner already held serve,
no serving-team delta and no lineup delta is emitted at all, so the serving
team and both lineups stay unchanged. -/
theorem serve_transfer_and_rotation (g : GameView) (now : Nat) (idStr : String)
    (isMy : Bool) (delta : Int)
    (hp : g.selectedPos.isSome = true) (ha : g.selectedAction.isSome = true)
    (hpos : 0 < delta) :
    (g.activeSide ≠ g.servingTeam →
        emittedServe (handleResult g now idStr ResultType.point) = some g.activeSide
      ∧ emittedLineup (handleResult g now idStr ResultType.point) =
          some { isMyTeam := decide (g.activeSide = TeamSide.me),
                 newLineup := getRotatedLineup (teamLineup g g.activeSide),
                 newLibero := none })
  ∧ (g.activeSide = g.servingTeam →
        emittedServe (handleResult g now idStr ResultType.point) = none
      ∧ emittedLineup (handleResult g now idStr ResultType.point) = none)
  ∧ (TeamSide.other g.activeSide ≠ g.servingTeam →
        emittedServe (handleResult g now idStr ResultType.error) =
          some (TeamSide.other g.activeSide)
      ∧ emittedLineup (handleResult g now idStr ResultType.error) =
          some { isMyTeam := decide (TeamSide.other g.activeSide = TeamSide.me),
                 newLineup := getRotatedLineup (teamLineup g (TeamSide.other g.activeSide)),
                 newLibero := none })
  ∧ (TeamSide.other g.activeSide = g.servingTeam →
        emittedServe (handleResult g now idStr ResultType.error) = none
      ∧ emittedLineup (handleResult g now idStr ResultType.error) = none)
  ∧ ((if isMy then TeamSide.me else TeamSide.op) ≠ g.servingTeam →
        (handleScoreAdjust g now idStr isMy delta).servingTeamUpdate =
          some (if isMy then TeamSide.me else TeamSide.op)
      ∧ (handleScoreAdjust g now idStr isMy delta).lineupUpdate =
          some { isMyTeam := isMy,
                 newLineup := getRotatedLineup (if isMy then g.myLineup else g.opLineup),
                 newLibero := none })
  ∧ ((if isMy then TeamSide.me else TeamSide.op) = g.servingTeam →
        (handleScoreAdjust g now idStr isMy delta).servingTeamUpdate = none
      ∧ (handleScoreAdjust g now idStr isMy delta).lineupUpdate = none) := by
  obtain ⟨sp, hsp⟩ := Option.isSome_iff_exists.mp hp
  obtain ⟨sa, hsa⟩ := Option.isSome_iff_exists.mp ha
  cases hA : g.activeSide <;> cases hS : g.servingTeam <;> cases isMy <;>
    simp [handleResult, handleScoreAdjust, emittedServe, emittedLineup,
          teamLineup, TeamSide.other, hsp, hsa, hA, hS, hpos]

/-- Witness for C1: concrete state with my side serving, my player acting, and
a positive manual adjustment for the opponent. An Error outcome (winner = op ≠
server = me) transfers serve and rotates op's lineup once; a Point outcome
(winner = me = server) emits no serve or lineup delta. -/
theorem serve_transfer_and_rotation_witness :
    demoGame.selectedPos.isSome = true
  ∧ demoGame.selectedAction.isSome = true
  ∧ ((0 : Int) < 1)
  ∧ ((TeamSide.me ≠ TeamSide.me →
        emittedServe (handleResult demoGame 0 "w1" ResultType.point) = some TeamSide.me
      ∧ emittedLineup (handleResult demoGame 0 "w1" ResultType.point) =
          some { isMyTeam := true,
                 newLineup := getRotatedLineup demoGame.myLineup,
                 newLibero := none })
    ∧ (TeamSide.me = TeamSide.me →
          emittedServe (handleResult demoGame 0 "w1" ResultType.point) = none
        ∧ emittedLineup (handleResult demoGame 0 "w1" ResultType.point) = none)
    ∧ (TeamSide.op ≠ TeamSide.me →
          emittedServe (handleResult demoGame 0 "w1" ResultType.error) = some TeamSide.op
        ∧ emittedLineup (handleResult demoGame 0 "w1" ResultType.error) =
            some { isMyTeam := false,
                   newLineup := getRotatedLineup demoGame.opLineup,
                   newLibero := none })
    ∧ (TeamSide.op = TeamSide.me →
          emittedServe (handleResult demoGame 0 "w1" ResultType.error) = none
        ∧ emittedLineup (handleResult demoGame 0 "w1" ResultType.error) = none)
    ∧ (TeamSide.op ≠ TeamSide.me →
          (handleScoreAdjust demoGame 0 "w1" false 1).servingTeamUpdate = some TeamSide.op
        ∧ (handleScoreAdjust demoGame 0 "w1" false 1).lineupUpdate =
            some { isMyTeam := false,
                   newLineup := getRotatedLineup demoGame.opLineup,
                   newLibero := none })
    ∧ (TeamSide.op = TeamSide.me →
          (handleScoreAdjust demoGame 0 "w1" false 1).servingTeamUpdate = none
        ∧ (handleScoreAdjust demoGame 0 "w1" false 1).lineupUpdate = none)) := by
  refine ⟨rfl, rfl, by decide, ?_⟩
  have h := serve_transfer_and_rotation demoGame 0 "w1" false 1 rfl rfl (by decide)
  simpa [demoGame, teamLineup, TeamSide.other] using h

/-- C6 counterexample: a stored Coordinate can leave [0,100]×[0,100].
During a Serve capture the auto-seeded start anchor sits at logical
x = -0.5 (outside the court, per the serve offset); committing the drag
stores `normalize` of it, whose x component is -25/9 < 0. -/
theorem stored_coordinate_range_counterexample :
    (normalize (getPositionCenter (some ActionType.serve) TeamSide.me
        (PosKey.slot Position.P1) false)).x < 0
  ∧ (handlePointerUp
        { startPos := some (getPositionCenter (some ActionType.serve) TeamSide.me
            (PosKey.slot Position.P1) false),
          endPos := some { x := 16, y := 4 },
          dragMode := some DragMode.dragEnd }).2 =
      some (normalize (getPositionCenter (some ActionType.serve) TeamSide.me
          (PosKey.slot Position.P1) false),
        normalize { x := 16, y := 4 }) := by
  constructor
  · norm_num [normalize, getPositionCenter]
  · rfl

/-- C6 amended: a stored Coordinate has both components in [0,100] whenever
the captured logical point lies within the 18 × 9 court rectangle; points
captured in the drawable out-of-bounds margin (serve-offset anchors, margin
taps) fall outside that range. -/
theorem stored_coordinate_range_amended (p : Point)
    (hx0 : 0 ≤ p.x) (hx1 : p.x ≤ 18) (hy0 : 0 ≤ p.y) (hy1 : p.y ≤ 9) :
    0 ≤ (normalize p).x ∧ (normalize p).x ≤ 100
  ∧ 0 ≤ (normalize p).y ∧ (normalize p).y ≤ 100 := by
  simp only [normalize]
  exact ⟨by linarith, by linarith, by linarith, by linarith⟩

/-- Witness for the amended C6 at the court point (9, 4). -/
theorem stored_coordinate_range_amended_witness :
    ((0 : ℚ) ≤ 9 ∧ (9 : ℚ) ≤ 18 ∧ (0 : ℚ) ≤ 4 ∧ (4 : ℚ) ≤ 9)
  ∧ (0 ≤ (normalize { x := 9, y := 4 }).x ∧ (normalize { x := 9, y := 4 }).x ≤ 100
     ∧ 0 ≤ (normalize { x := 9, y := 4 }).y ∧ (normalize { x := 9, y := 4 }).y ≤ 100) :=
  ⟨by decide,
   stored_coordinate_range_amended { x := 9, y := 4 }
     (by decide) (by decide) (by decide) (by decide)⟩

/-- C7: `normalize` scales the axes linearly by 100/18 and 100/9, and for any
logical point within the court bounds `denormalize` (modelled from the spec)
inverts it exactly — in the exact-rational model the round trip is an
identity, which is the floating-point-tolerance statement made exact. -/
theorem normalize_scale_and_roundtrip (p : Point)
    (hx0 : 0 ≤ p.x) (hx1 : p.x ≤ 18) (hy0 : 0 ≤ p.y) (hy1 : p.y ≤ 9) :
    (normalize p).x = 100 / 18 * p.x
  ∧ (normalize p).y = 100 / 9 * p.y
  ∧ denormalize (normalize p) = p := by
  refine ⟨?_, ?_, ?_⟩
  · simp only [normalize]
    ring
  · simp only [normalize]
    ring
  · cases p with
    | mk x y =>
      simp only [normalize, denormalize, Point.mk.injEq]
      constructor <;> ring

/-- Witness for C7 at the court point (1, 2). -/
theorem normalize_scale_and_roundtrip_witness :
    ((0 : ℚ) ≤ 1 ∧ (1 : ℚ) ≤ 18 ∧ (0 : ℚ) ≤ 2 ∧ (2 : ℚ) ≤ 9)
  ∧ ((normalize { x := 1, y := 2 }).x = 100 / 18 * 1
     ∧ (normalize { x := 1, y := 2 }).y = 100 / 9 * 2
     ∧ denormalize (normalize { x := 1, y := 2 }) = { x := 1, y := 2 }) :=
  ⟨by decide,
   normalize_scale_and_roundtrip { x := 1, y := 2 }
     (by decide) (by decide) (by decide) (by decide)⟩

/-- C8: during capture, a pointer-down within the hit radius of the stored end
point grabs the end point (the state is only the drag-mode change — no new end
point is placed); if the end point is not hit but the start point is, the
start point is grabbed. In particular when both endpoints are within the
radius the end point wins, since its test runs first. -/
theorem hit_test_end_priority (istate : IState) (pt : Point) (s : CourtState)
    (hstate : istate = IState.DRAWING ∨ istate = IState.RESULT_PENDING) :
    (hitsEndpoint pt s.endPos = true →
        handlePointerDown istate pt s = { s with dragMode := some DragMode.dragEnd })
  ∧ (hitsEndpoint pt s.endPos = false → hitsEndpoint pt s.startPos = true →
        handlePointerDown istate pt s = { s with dragMode := some DragMode.dragStart }) := by
  rcases hstate with h | h <;> subst h
  · refine ⟨fun h1 => ?_, fun h1 h2 => ?_⟩
    · simp [handlePointerDown, h1]
    · simp [handlePointerDown, h1, h2]
  · refine ⟨fun h1 => ?_, fun h1 h2 => ?_⟩
    · simp [handlePointerDown, h1]
    · simp [handlePointerDown, h1, h2]

/-- Witness for C8: pointer-down at the origin with both stored endpoints in
radius (distances 0 and 1 against radius 1.5). -/
theorem hit_test_end_priority_witness :
    (IState.DRAWING = IState.DRAWING ∨ IState.DRAWING = IState.RESULT_PENDING)
  ∧ ((hitsEndpoint { x := 0, y := 0 } demoCourt.endPos = true →
        handlePointerDown IState.DRAWING { x := 0, y := 0 } demoCourt =
          { demoCourt with dragMode := some DragMode.dragEnd })
     ∧ (hitsEndpoint { x := 0, y := 0 } demoCourt.endPos = false →
        hitsEndpoint { x := 0, y := 0 } demoCourt.startPos = true →
        handlePointerDown IState.DRAWING { x := 0, y := 0 } demoCourt =
          { demoCourt with dragMode := some DragMode.dragStart })) :=
  ⟨Or.inl rfl,
   hit_test_end_priority IState.DRAWING { x := 0, y := 0 } demoCourt (Or.inl rfl)⟩

/-- How one `forEach` iteration of `calculateStats` changes each counter. -/
theorem statStep_fields (s : StatSummary) (l : LogEntry) :
    (statStep s l).attackTotal =
      s.attackTotal + (if l.action = ActionType.attack then 1 else 0)
  ∧ (statStep s l).attackKills =
      s.attackKills +
        (if l.action = ActionType.attack ∧ l.result = ResultType.point then 1 else 0)
  ∧ (statStep s l).blocks =
      s.blocks +
        (if l.action = ActionType.block ∧ l.result = ResultType.point then 1 else 0)
  ∧ (statStep s l).serveAces =
      s.serveAces +
        (if l.action = ActionType.serve ∧ l.result = ResultType.point then 1 else 0)
  ∧ (statStep s l).serveErrors =
      s.serveErrors +
        (if l.action = ActionType.serve ∧ l.result = ResultType.error then 1 else 0)
  ∧ (statStep s l).totalPoints = s.totalPoints := by
  cases hA : l.action <;> cases hR : l.result <;> simp [statStep, hA, hR]

/-- Folding `statStep` over a log subset adds, per counter, the number of
entries matching that counter's action/result condition. -/
theorem foldl_statStep_counts (logs : List LogEntry) : ∀ s0 : StatSummary,
    (List.foldl statStep s0 logs).attackTotal =
      s0.attackTotal + logs.countP (fun l => decide (l.action = ActionType.attack))
  ∧ (List.foldl statStep s0 logs).attackKills =
      s0.attackKills + logs.countP
        (fun l => decide (l.action = ActionType.attack ∧ l.result = ResultType.point))
  ∧ (List.foldl statStep s0 logs).blocks =
      s0.blocks + logs.countP
        (fun l => decide (l.action = ActionType.block ∧ l.result = ResultType.point))
  ∧ (List.foldl statStep s0 logs).serveAces =
      s0.serveAces + logs.countP
        (fun l => decide (l.action = ActionType.serve ∧ l.result = ResultType.point))
  ∧ (List.foldl statStep s0 logs).serveErrors =
      s0.serveErrors + logs.countP
        (fun l => decide (l.action = ActionType.serve ∧ l.result = ResultType.error))
  ∧ (List.foldl statStep s0 logs).totalPoints = s0.totalPoints := by
  induction logs with
  | nil => intro s0; simp
  | cons l t ih =>
    intro s0
    have hs := statStep_fields s0 l
    have ht := ih (statStep s0 l)
    simp only [List.foldl_cons, List.countP_cons]
    refine ⟨?_, ?_, ?_, ?_, ?_, ?_⟩
    · rw [ht.1, hs.1]
      by_cases h : l.action = ActionType.attack <;> simp [h] <;> omega
    · rw [ht.2.1, hs.2.1]
      by_cases h : l.action = ActionType.attack ∧ l.result = ResultType.point <;>
        simp [h] <;> omega
    · rw [ht.2.2.1, hs.2.2.1]
      by_cases h : l.action = ActionType.block ∧ l.result = ResultType.point <;>
        simp [h] <;> omega
    · rw [ht.2.2.2.1, hs.2.2.2.1]
      by_cases h : l.action = ActionType.serve ∧ l.result = ResultType.point <;>
        simp [h] <;> omega
    · rw [ht.2.2.2.2.1, hs.2.2.2.2.1]
      by_cases h : l.action = ActionType.serve ∧ l.result = ResultType.error <;>
        simp [h] <;> omega
    · rw [ht.2.2.2.2.2, hs.2.2.2.2.2]

/-- The rendered attack-efficiency expression, rephrased with the zero test on
the attempt count. -/
theorem attackEffPercent_eq (logs : List LogEntry) :
    attackEffPercent logs =
      if (calculateStats logs).attackTotal = 0 then 0
      else round (((calculateStats logs).attackKills : ℚ) /
        ((calculateStats logs).attackTotal : ℚ) * 100) := by
  rcases Nat.eq_zero_or_pos (calculateStats logs).attackTotal with h | h
  · simp [attackEffPercent, h]
  · simp [attackEffPercent, h, Nat.pos_iff_ne_zero.mp h]

/-- C9: on any log subset the Stats Aggregator counts attack attempts, attack
kills, blocks-as-points (Block with result Point only), serve aces (Serve with
Point) and serve errors (Serve with Error) exactly as the matching-entry
counts; total points is kills + blocks + aces; and the attack-efficiency
figure is the kills/attempts ratio (rendered as a rounded percentage) with 0
when there are no attempts. -/
theorem stats_aggregator_spec (logs : List LogEntry) :
    (calculateStats logs).attackTotal =
      logs.countP (fun l => decide (l.action = ActionType.attack))
  ∧ (calculateStats logs).attackKills =
      logs.countP
        (fun l => decide (l.action = ActionType.attack ∧ l.result = ResultType.point))
  ∧ (calculateStats logs).blocks =
      logs.countP
        (fun l => decide (l.action = ActionType.block ∧ l.result = ResultType.point))
  ∧ (calculateStats logs).serveAces =
      logs.countP
        (fun l => decide (l.action = ActionType.serve ∧ l.result = ResultType.point))
  ∧ (calculateStats logs).serveErrors =
      logs.countP
        (fun l => decide (l.action = ActionType.serve ∧ l.result = ResultType.error))
  ∧ (calculateStats logs).totalPoints =
      (calculateStats logs).attackKills + (calculateStats logs).blocks +
        (calculateStats logs).serveAces
  ∧ attackEffPercent logs =
      (if (calculateStats logs).attackTotal = 0 then 0
       else round (((calculateStats logs).attackKills : ℚ) /
         ((calculateStats logs).attackTotal : ℚ) * 100)) := by
  obtain ⟨h1, h2, h3, h4, h5, h6⟩ := foldl_statStep_counts logs
    { attackKills := 0, attackTotal := 0, blocks := 0, serveAces := 0,
      serveErrors := 0, digs := 0, totalPoints := 0 }
  refine ⟨?_, ?_, ?_, ?_, ?_, ?_, attackEffPercent_eq logs⟩ <;>
    simp [calculateStats, h1, h2, h3, h4, h5]

end VolleyScout
